import Mathlib

/-!
Verification of the CRUDSEMS front-end session layer.

Shallow embedding of:
* `src/features/auth/authSlice.ts` — session state, localStorage helpers,
  the four async thunks (register / login / getMe / logout) and their
  fulfilled/rejected reducers;
* `src/components/PrivateRoute.tsx` — the route guard;
* `src/utils/axios.ts` — the request interceptor attaching the bearer header;
* `src/pages/auth/Login.tsx` — the post-login navigation;
* the pagination arithmetic of `src/pages/Dashboards/DashboardAdmin.tsx` and
  `DashboardEmployee.tsx` (`Math.ceil(total / limit)`).

Modelling conventions:
* A JavaScript nullable string is `Option String`; JS truthiness of a string
  (`s || null`, `!!s`, `if (s)`) is captured by `jsStrOrNull` / `jsOrDefault`,
  which treat the empty string as falsy.
* The value held under the localStorage key `user` is modelled by
  `StoredUserStr`: either the `JSON.stringify` image of a user record (the
  only value the program itself ever writes there), the empty string, or a
  non-empty string rejected by `JSON.parse`.  `JSON.parse` is the partial
  function `StoredUserStr.parse`; where the source calls it without a
  `try/catch` the embedding returns `Except.error` (an uncaught exception).
* An HTTP call outcome is `HttpResult α`: success with a payload, or failure
  carrying the optional server error string `err.response?.data?.error`.
* Each session operation is embedded as one total function on `SystemState`
  (redux state + localStorage + `api.defaults.headers.common.Authorization`),
  composed from the thunk's side effects and the matching extraReducer,
  parametrised by the HTTP outcome.
-/

namespace CrudSems

/-- `role: 'ADMIN' | 'EMPLOYEE'` from `authSlice.ts`. -/
inductive Role
  | ADMIN
  | EMPLOYEE
deriving DecidableEq, Repr

/-- `interface User` of `authSlice.ts` (id, email, name, role, staffPoints). -/
structure User where
  id : Nat
  email : String
  name : String
  role : Role
  staffPoints : Int
deriving DecidableEq, Repr

/-- `interface AuthResponse` of `authSlice.ts` (message, user, accessToken). -/
structure AuthResponse where
  message : String
  user : User
  accessToken : String
deriving DecidableEq, Repr

/-- A string held under the localStorage key `user`: the serialized form of a
user record, the empty string, or a non-empty string `JSON.parse` rejects. -/
inductive StoredUserStr
  | userJson (u : User)
  | invalid
  | empty
deriving DecidableEq, Repr

/-- JS truthiness of the stored string: only the empty string is falsy. -/
def StoredUserStr.truthy : StoredUserStr → Bool
  | .empty => false
  | _ => true

/-- `JSON.parse` on a stored string: succeeds exactly on the serialized form
of a user record (the empty string and invalid strings raise `SyntaxError`). -/
def StoredUserStr.parse : StoredUserStr → Option User
  | .userJson u => some u
  | _ => none

/-- The two persisted keys, localStorage `user` and `token`.  `none` means the
key is absent (`getItem` returns `null`). -/
structure Storage where
  userKey : Option StoredUserStr
  tokenKey : Option String
deriving DecidableEq, Repr

/-- JS `s || null` on a nullable string: the empty string collapses to null. -/
def jsStrOrNull : Option String → Option String
  | some s => if s = "" then none else some s
  | none => none

/-- JS `e || d` on a nullable string with a string default. -/
def jsOrDefault (e : Option String) (d : String) : String :=
  match e with
  | some s => if s = "" then d else s
  | none => d

/-- `interface AuthState` of `authSlice.ts`. -/
structure AuthState where
  user : Option User
  token : Option String
  isAuthenticated : Bool
  error : Option String
  loading : Bool
deriving DecidableEq, Repr

/-- `api.defaults.headers.common.Authorization` of the shared axios client:
assigned on register/login success, deleted on logout success. -/
structure ApiDefaults where
  authorization : Option String
deriving DecidableEq, Repr

/-- The whole client-visible state a session operation can touch. -/
structure SystemState where
  auth : AuthState
  storage : Storage
  defaults : ApiDefaults
deriving DecidableEq, Repr

/-- `saveAuthToLocalStorage` (authSlice.ts lines 28-31): `setItem` both keys. -/
def saveAuthToLocalStorage (u : User) (t : String) (_s : Storage) : Storage :=
  { userKey := some (.userJson u), tokenKey := some t }

/-- `clearAuthFromLocalStorage` (authSlice.ts lines 33-36): `removeItem` both keys. -/
def clearAuthFromLocalStorage (_s : Storage) : Storage :=
  { userKey := none, tokenKey := none }

/-- The module-initialisation code of `authSlice.ts` (lines 39-48) computing
`initialState` from localStorage.  `storedUser ? JSON.parse(storedUser) : null`
is not wrapped in a `try/catch`, so a stored user string that `JSON.parse`
rejects raises an uncaught `SyntaxError`, embedded as `Except.error`.
`token: storedToken || null` and `isAuthenticated: !!storedToken` use JS
truthiness. -/
def initialStateOf (ls : Storage) : Except String AuthState :=
  let tok := jsStrOrNull ls.tokenKey
  match ls.userKey with
  | some s =>
      if s.truthy then
        match s.parse with
        | some u =>
            .ok { user := some u, token := tok, isAuthenticated := tok.isSome,
                  error := none, loading := false }
        | none => .error "SyntaxError: JSON.parse"
      else
        .ok { user := none, token := tok, isAuthenticated := tok.isSome,
              error := none, loading := false }
  | none =>
      .ok { user := none, token := tok, isAuthenticated := tok.isSome,
            error := none, loading := false }

/-- Outcome of one HTTP call: the parsed success payload, or a failure
carrying the optional server message `err.response?.data?.error`. -/
inductive HttpResult (α : Type)
  | ok (data : α)
  | err (serverError : Option String)
deriving DecidableEq, Repr

/-! ### The four session operations

Each is the thunk of `authSlice.ts` composed with its extraReducer, as one
function on `SystemState` parametrised by the HTTP outcome.  The rejected
payload is always `some (jsOrDefault e default)` because every thunk catches
its error and calls `rejectWithValue(err.response?.data?.error || default)`;
the reducer then applies `action.payload || default` once more. -/

/-- `registerUser.fulfilled` reducer (authSlice.ts lines 124-130). -/
def registerFulfilledReducer (p : AuthResponse) (_st : AuthState) : AuthState :=
  { user := some p.user, token := some p.accessToken, isAuthenticated := true,
    error := none, loading := false }

/-- `registerUser.rejected` reducer (authSlice.ts lines 131-134). -/
def registerRejectedReducer (payload : Option String) (st : AuthState) : AuthState :=
  { st with error := some (jsOrDefault payload "Registration failed"), loading := false }

/-- `registerUser` thunk (authSlice.ts lines 51-64) + its reducers. -/
def registerOp (res : HttpResult AuthResponse) (st : SystemState) : SystemState :=
  match res with
  | .ok r =>
      { auth := registerFulfilledReducer r st.auth,
        storage := saveAuthToLocalStorage r.user r.accessToken st.storage,
        defaults := { authorization := some ("Bearer " ++ r.accessToken) } }
  | .err e =>
      { auth := registerRejectedReducer (some (jsOrDefault e "Registration failed")) st.auth,
        storage := st.storage,
        defaults := st.defaults }

/-- `loginUser.fulfilled` reducer (authSlice.ts lines 141-147). -/
def loginFulfilledReducer (p : AuthResponse) (_st : AuthState) : AuthState :=
  { user := some p.user, token := some p.accessToken, isAuthenticated := true,
    error := none, loading := false }

/-- `loginUser.rejected` reducer (authSlice.ts lines 148-154): clears the
whole session, unlike the register one. -/
def loginRejectedReducer (payload : Option String) (_st : AuthState) : AuthState :=
  { user := none, token := none, isAuthenticated := false,
    error := some (jsOrDefault payload "Login failed"), loading := false }

/-- `loginUser` thunk (authSlice.ts lines 66-79) + its reducers.  The catch
branch only rejects; it does not touch localStorage or the defaults. -/
def loginOp (res : HttpResult AuthResponse) (st : SystemState) : SystemState :=
  match res with
  | .ok r =>
      { auth := loginFulfilledReducer r st.auth,
        storage := saveAuthToLocalStorage r.user r.accessToken st.storage,
        defaults := { authorization := some ("Bearer " ++ r.accessToken) } }
  | .err e =>
      { auth := loginRejectedReducer (some (jsOrDefault e "Invalid credentials")) st.auth,
        storage := st.storage,
        defaults := st.defaults }

/-- `getMe.fulfilled` reducer (authSlice.ts lines 161-166): sets the user,
leaves the token field alone. -/
def getMeFulfilledReducer (p : User) (st : AuthState) : AuthState :=
  { st with user := some p, isAuthenticated := true, error := none, loading := false }

/-- `getMe.rejected` reducer (authSlice.ts lines 167-173). -/
def getMeRejectedReducer (payload : Option String) (_st : AuthState) : AuthState :=
  { user := none, token := none, isAuthenticated := false,
    error := some (jsOrDefault payload "Failed to fetch user"), loading := false }

/-- `getMe` thunk (authSlice.ts lines 81-93) + its reducers.  On success the
thunk re-saves `(res.data, localStorage.getItem('token') || '')`; on failure
it clears localStorage (but not the axios defaults) before rejecting. -/
def getMeOp (res : HttpResult User) (st : SystemState) : SystemState :=
  match res with
  | .ok u =>
      { auth := getMeFulfilledReducer u st.auth,
        storage := saveAuthToLocalStorage u (st.storage.tokenKey.getD "") st.storage,
        defaults := st.defaults }
  | .err e =>
      { auth := getMeRejectedReducer (some (jsOrDefault e "Failed to fetch user")) st.auth,
        storage := clearAuthFromLocalStorage st.storage,
        defaults := st.defaults }

/-- `logoutUser.fulfilled` reducer (authSlice.ts lines 179-185). -/
def logoutFulfilledReducer (_st : AuthState) : AuthState :=
  { user := none, token := none, isAuthenticated := false,
    error := none, loading := false }

/-- `logoutUser.rejected` reducer (authSlice.ts lines 186-189): sets only
`error` and `loading`; `user`, `token`, `isAuthenticated` keep their values. -/
def logoutRejectedReducer (payload : Option String) (st : AuthState) : AuthState :=
  { st with error := some (jsOrDefault payload "Logout failed"), loading := false }

/-- `logoutUser` thunk (authSlice.ts lines 95-106) + its reducers.  The thunk
clears localStorage and the default Authorization header only after the
remote `GET /auth/logout` succeeds; the catch branch rejects without
clearing anything. -/
def logoutOp (res : HttpResult Unit) (st : SystemState) : SystemState :=
  match res with
  | .ok _ =>
      { auth := logoutFulfilledReducer st.auth,
        storage := clearAuthFromLocalStorage st.storage,
        defaults := { authorization := none } }
  | .err e =>
      { auth := logoutRejectedReducer (some (jsOrDefault e "Logout failed")) st.auth,
        storage := st.storage,
        defaults := st.defaults }

/-! ### Route guard, interceptor, navigation, pagination -/

/-- What `PrivateRoute` renders. -/
inductive RouteResult
  | toLogin
  | toUnauthorized
  | content
deriving DecidableEq, Repr

/-- `PrivateRoute` (PrivateRoute.tsx lines 10-30): reads the localStorage
`user` key; a missing or falsy string redirects to `/login`; an unparseable
one is caught and redirects to `/login`; a parsed record with
`role !== requiredRole` redirects to `/unauthorized`; otherwise the children
render. -/
def PrivateRoute (storedUser : Option StoredUserStr) (requiredRole : Role) : RouteResult :=
  match storedUser with
  | none => .toLogin
  | some s =>
      if s.truthy then
        match s.parse with
        | none => .toLogin
        | some u => if u.role ≠ requiredRole then .toUnauthorized else .content
      else .toLogin

/-- The Authorization header an outgoing call through the shared client ends
up with (axios.ts lines 11-19).  axios merges `defaults.headers.common` into
the request config before request interceptors run, so the interceptor sees
the default header and overwrites it when `localStorage.getItem('token')` is
truthy; when the stored token is absent or empty the default header, if any,
is left in place. -/
def requestAuthHeader (storage : Storage) (defaults : ApiDefaults) : Option String :=
  match jsStrOrNull storage.tokenKey with
  | some t => some ("Bearer " ++ t)
  | none => defaults.authorization

/-- The fulfilled branch of `Login.onSubmit` (Login.tsx lines 43-54): writes
the user and token to localStorage again and navigates to the fixed route
`/dashboard/admin`, with no inspection of `user.role`. -/
def loginOnSubmitFulfilled (r : AuthResponse) (_s : Storage) : Storage × String :=
  ({ userKey := some (.userJson r.user), tokenKey := some r.accessToken },
   "/dashboard/admin")

/-- `Math.ceil(response.data.total / limit)` of the dashboard fetchers
(DashboardAdmin.tsx line 104, DashboardEmployee.tsx line 118): the ceiling of
the exact quotient (both operands are non-negative integers small enough that
the JS float division is exact in every case the claims mention). -/
def computeTotalPages (total limit : ℕ) : ℤ :=
  ⌈(total : ℚ) / (limit : ℚ)⌉

/-! ### Sample concrete values used by witnesses and counterexamples -/

/-- A concrete admin user record. -/
def sampleUser : User :=
  { id := 1, email := "admin@sems.test", name := "Ada", role := .ADMIN, staffPoints := 50 }

/-- A concrete employee user record. -/
def sampleEmployee : User :=
  { id := 2, email := "emp@sems.test", name := "Eve", role := .EMPLOYEE, staffPoints := 10 }

/-- A concrete successful auth response. -/
def sampleResponse : AuthResponse :=
  { message := "ok", user := sampleUser, accessToken := "tok" }

/-- The fully empty system state: empty session, empty storage, no default
Authorization header. -/
def emptyState : SystemState :=
  { auth := { user := none, token := none, isAuthenticated := false,
              error := none, loading := false },
    storage := { userKey := none, tokenKey := none },
    defaults := { authorization := none } }

/-- A concrete logged-in system state, as produced by a successful login. -/
def loggedInState : SystemState := loginOp (.ok sampleResponse) emptyState

/-- Collapsing the two `||`-default stages (thunk `rejectWithValue`, then
reducer fallback) into one. -/
theorem jsOrDefault_some_jsOrDefault (e : Option String) (d : String) :
    jsOrDefault (some (jsOrDefault e d)) d = jsOrDefault e d := by
  cases e with
  | none => simp [jsOrDefault]
  | some s =>
      by_cases hs : s = "" <;> simp [jsOrDefault, hs]

/-! ### Claims -/

/-- C1, claim as stated is false: after a rejected remote logout call the
local session and the durable-storage keys are NOT cleared.  Starting from a
concrete logged-in state, `logoutUser` with a failed HTTP call leaves the
stored token, the stored user, the in-memory user and `isAuthenticated = true`
all in place. -/
theorem C1_counterexample :
    (logoutOp (.err none) loggedInState).storage.tokenKey = some "tok" ∧
    (logoutOp (.err none) loggedInState).storage.userKey = some (.userJson sampleUser) ∧
    (logoutOp (.err none) loggedInState).auth.user = some sampleUser ∧
    (logoutOp (.err none) loggedInState).auth.isAuthenticated = true := by
  decide

/-- C1 (amended): on a fulfilled logout the in-memory session and both
durable-storage keys are cleared and `lastError` is null; on a rejected
logout the only effects are `lastError := server message or "Logout failed"`
and `loading := false` — session fields and durable storage are left exactly
as they were (they are not cleared). -/
theorem C1_logout (e : Option String) (st : SystemState) :
    ((logoutOp (.ok ()) st).auth.user = none ∧
     (logoutOp (.ok ()) st).auth.token = none ∧
     (logoutOp (.ok ()) st).auth.isAuthenticated = false ∧
     (logoutOp (.ok ()) st).auth.error = none ∧
     (logoutOp (.ok ()) st).storage.userKey = none ∧
     (logoutOp (.ok ()) st).storage.tokenKey = none) ∧
    ((logoutOp (.err e) st).auth.user = st.auth.user ∧
     (logoutOp (.err e) st).auth.token = st.auth.token ∧
     (logoutOp (.err e) st).auth.isAuthenticated = st.auth.isAuthenticated ∧
     (logoutOp (.err e) st).storage = st.storage ∧
     (logoutOp (.err e) st).auth.error = some (jsOrDefault e "Logout failed")) := by
  refine ⟨⟨rfl, rfl, rfl, rfl, rfl, rfl⟩, rfl, rfl, rfl, rfl, ?_⟩
  simp [logoutOp, logoutRejectedReducer, jsOrDefault_some_jsOrDefault]

/-- C2, claim as stated is false: with a stored `user` value that is not
valid JSON, the module-initialisation code of `authSlice.ts` calls
`JSON.parse` outside any `try/catch`, so rehydration raises an uncaught
exception instead of yielding an empty session. -/
theorem C2_counterexample :
    initialStateOf { userKey := some .invalid, tokenKey := none } =
      .error "SyntaxError: JSON.parse" := rfl

/-- C2 (amended): rehydration with a valid stored user record and a
non-empty token yields `isAuthenticated = true` and the stored user; empty
storage yields the fully empty session; but a stored user value that
`JSON.parse` rejects makes rehydration throw (crash) rather than yield an
empty session. -/
theorem C2_rehydration (u : User) (t : String) (ht : t ≠ "") :
    initialStateOf { userKey := some (.userJson u), tokenKey := some t } =
      .ok { user := some u, token := some t, isAuthenticated := true,
            error := none, loading := false } ∧
    initialStateOf { userKey := none, tokenKey := none } =
      .ok { user := none, token := none, isAuthenticated := false,
            error := none, loading := false } ∧
    (∀ tk, initialStateOf { userKey := some .invalid, tokenKey := tk } =
      .error "SyntaxError: JSON.parse") := by
  refine ⟨?_, rfl, fun tk => rfl⟩
  simp [initialStateOf, jsStrOrNull, ht, StoredUserStr.truthy, StoredUserStr.parse]

/-- C2 witness: the amended rehydration theorem applied at a concrete user
and token. -/
theorem C2_rehydration_witness :
    initialStateOf { userKey := some (.userJson sampleUser), tokenKey := some "tok" } =
      .ok { user := some sampleUser, token := some "tok", isAuthenticated := true,
            error := none, loading := false } :=
  (C2_rehydration sampleUser "tok" (by decide)).1

/-- C3: after a successful login response carrying `user` and `accessToken`,
the session holds exactly that user and token, `isAuthenticated = true`,
`lastError` is null, and both durable-storage keys hold the same two
values. -/
theorem C3_login_success (r : AuthResponse) (st : SystemState) :
    (loginOp (.ok r) st).auth.user = some r.user ∧
    (loginOp (.ok r) st).auth.token = some r.accessToken ∧
    (loginOp (.ok r) st).auth.isAuthenticated = true ∧
    (loginOp (.ok r) st).auth.error = none ∧
    (loginOp (.ok r) st).storage.userKey = some (.userJson r.user) ∧
    (loginOp (.ok r) st).storage.tokenKey = some r.accessToken :=
  ⟨rfl, rfl, rfl, rfl, rfl, rfl⟩

/-- C4: after a rejected login call the session is cleared
(`currentUser = null`, `credentialToken = null`, `isAuthenticated = false`)
and `lastError` is the server-supplied message when one is present (non-empty),
otherwise the fixed default `"Invalid credentials"`. -/
theorem C4_login_failure (e : Option String) (st : SystemState) :
    (loginOp (.err e) st).auth.user = none ∧
    (loginOp (.err e) st).auth.token = none ∧
    (loginOp (.err e) st).auth.isAuthenticated = false ∧
    (∀ m, e = some m → m ≠ "" → (loginOp (.err e) st).auth.error = some m) ∧
    (e = none → (loginOp (.err e) st).auth.error = some "Invalid credentials") := by
  refine ⟨rfl, rfl, rfl, ?_, ?_⟩
  · rintro m rfl hm
    simp [loginOp, loginRejectedReducer, jsOrDefault, hm]
  · rintro rfl
    simp [loginOp, loginRejectedReducer, jsOrDefault]

/-- C4 witness: the login-failure theorem applied at a concrete server
message and at a missing one. -/
theorem C4_login_failure_witness :
    (loginOp (.err (some "wrong password")) loggedInState).auth.error =
      some "wrong password" ∧
    (loginOp (.err none) loggedInState).auth.error = some "Invalid credentials" :=
  ⟨(C4_login_failure (some "wrong password") loggedInState).2.2.2.1
      "wrong password" rfl (by decide),
   (C4_login_failure none loggedInState).2.2.2.2 rfl⟩

/-- The in-memory session and durable storage agree: the stored `user` key is
the serialization of the in-memory user (or both absent), and the stored
`token` key equals the in-memory token (or both absent). -/
def memMatchesStorage (st : SystemState) : Prop :=
  st.storage.userKey = st.auth.user.map StoredUserStr.userJson ∧
  st.storage.tokenKey = st.auth.token

instance (st : SystemState) : Decidable (memMatchesStorage st) := by
  unfold memMatchesStorage; infer_instance

/-- C5, claim as stated is false: a rejected login clears the in-memory
session but leaves durable storage untouched, so after a failed login from a
logged-in state the in-memory user/token (null) diverge from the stored
ones (still present). -/
theorem C5_counterexample :
    memMatchesStorage loggedInState ∧
    ¬ memMatchesStorage (loginOp (.err none) loggedInState) ∧
    (loginOp (.err none) loggedInState).auth.user = none ∧
    (loginOp (.err none) loggedInState).storage.userKey =
      some (.userJson sampleUser) := by
  decide

/-- C5 (amended): the memory/storage agreement is established by fulfilled
register, fulfilled login, fulfilled logout and rejected fetchCurrentUser;
it is preserved by rejected register and rejected logout (which change
neither side); and it is preserved by fulfilled fetchCurrentUser when a token
is in memory.  A rejected login, however, clears memory while leaving
storage, so the two can diverge there. -/
theorem C5_invariant (r : AuthResponse) (u : User) (e : Option String)
    (st : SystemState) (h : memMatchesStorage st) :
    memMatchesStorage (registerOp (.ok r) st) ∧
    memMatchesStorage (loginOp (.ok r) st) ∧
    memMatchesStorage (logoutOp (.ok ()) st) ∧
    memMatchesStorage (getMeOp (.err e) st) ∧
    memMatchesStorage (registerOp (.err e) st) ∧
    memMatchesStorage (logoutOp (.err e) st) ∧
    (∀ t, st.auth.token = some t → memMatchesStorage (getMeOp (.ok u) st)) := by
  obtain ⟨h1, h2⟩ := h
  refine ⟨⟨rfl, rfl⟩, ⟨rfl, rfl⟩, ⟨rfl, rfl⟩, ⟨rfl, rfl⟩, ⟨h1, h2⟩, ⟨h1, h2⟩, ?_⟩
  intro t ht
  refine ⟨rfl, ?_⟩
  show some ((st.storage.tokenKey).getD "") = st.auth.token
  rw [h2, ht]
  rfl

/-- C5 witness: the agreement invariant applied at a concrete response and
the concrete logged-in state, whose hypothesis holds by evaluation. -/
theorem C5_invariant_witness :
    memMatchesStorage (loginOp (.ok sampleResponse) loggedInState) :=
  (C5_invariant sampleResponse sampleUser none loggedInState (by decide)).2.1

/-- C6: a rejected register sets `lastError` to the server message when one
is present (non-empty), otherwise `"Registration failed"`, and leaves
`currentUser`, `credentialToken`, `isAuthenticated` and both durable-storage
keys exactly as they were: a pre-existing session is preserved. -/
theorem C6_register_failure (e : Option String) (st : SystemState) :
    (registerOp (.err e) st).auth.user = st.auth.user ∧
    (registerOp (.err e) st).auth.token = st.auth.token ∧
    (registerOp (.err e) st).auth.isAuthenticated = st.auth.isAuthenticated ∧
    (registerOp (.err e) st).storage = st.storage ∧
    (∀ m, e = some m → m ≠ "" → (registerOp (.err e) st).auth.error = some m) ∧
    (e = none → (registerOp (.err e) st).auth.error = some "Registration failed") := by
  refine ⟨rfl, rfl, rfl, rfl, ?_, ?_⟩
  · rintro m rfl hm
    simp [registerOp, registerRejectedReducer, jsOrDefault, hm]
  · rintro rfl
    simp [registerOp, registerRejectedReducer, jsOrDefault]

/-- C6 witness: the register-failure theorem applied at a concrete server
message and the concrete logged-in state: the session survives the failed
register. -/
theorem C6_register_failure_witness :
    (registerOp (.err (some "email taken")) loggedInState).auth.error =
      some "email taken" ∧
    (registerOp (.err (some "email taken")) loggedInState).auth.user =
      loggedInState.auth.user :=
  ⟨(C6_register_failure (some "email taken") loggedInState).2.2.2.2.1
      "email taken" rfl (by decide),
   (C6_register_failure (some "email taken") loggedInState).1⟩

/-- C7: the route guard redirects to `/login` when no user is stored and when
the stored value is not parseable; redirects to `/unauthorized` when the
parsed user's role differs from the required role; and renders the protected
content when the roles match. -/
theorem C7_route_guard (requiredRole : Role) (u : User) :
    PrivateRoute none requiredRole = .toLogin ∧
    PrivateRoute (some .invalid) requiredRole = .toLogin ∧
    (u.role ≠ requiredRole →
      PrivateRoute (some (.userJson u)) requiredRole = .toUnauthorized) ∧
    (u.role = requiredRole →
      PrivateRoute (some (.userJson u)) requiredRole = .content) := by
  refine ⟨rfl, rfl, ?_, ?_⟩
  · intro hne
    simp [PrivateRoute, StoredUserStr.truthy, StoredUserStr.parse, hne]
  · intro heq
    simp [PrivateRoute, StoredUserStr.truthy, StoredUserStr.parse, heq]

/-- C7 witness: the guard theorem applied at the claim's concrete scenario —
a stored EMPLOYEE with `requiredRole = ADMIN` is sent to `/unauthorized`, and
a stored ADMIN with `requiredRole = ADMIN` gets the content. -/
theorem C7_route_guard_witness :
    PrivateRoute (some (.userJson sampleEmployee)) .ADMIN = .toUnauthorized ∧
    PrivateRoute (some (.userJson sampleUser)) .ADMIN = .content :=
  ⟨(C7_route_guard .ADMIN sampleEmployee).2.2.1 (by decide),
   (C7_route_guard .ADMIN sampleUser).2.2.2 (by decide)⟩

/-- C8, claim as stated is false: when no token is in storage a request can
still carry an Authorization header.  Reachably: a successful login installs
`Bearer tok` as a default header on the shared client; a later rejected
fetchCurrentUser clears storage but not that default; the next request then
has no stored token yet still carries `Authorization: Bearer tok`. -/
theorem C8_counterexample :
    (getMeOp (.err none) loggedInState).storage.tokenKey = none ∧
    requestAuthHeader (getMeOp (.err none) loggedInState).storage
      (getMeOp (.err none) loggedInState).defaults = some "Bearer tok" := by
  decide

/-- C8 (amended): when a non-empty token is in durable storage, every request
through the shared client carries exactly `Authorization: Bearer <token>`;
when no (truthy) token is stored, the request carries the client's default
Authorization header — installed by a successful register/login and removed
only by a successful logout — and only carries none when that default is also
absent. -/
theorem C8_header (storage : Storage) (defaults : ApiDefaults) :
    (∀ t, storage.tokenKey = some t → t ≠ "" →
      requestAuthHeader storage defaults = some ("Bearer " ++ t)) ∧
    (jsStrOrNull storage.tokenKey = none →
      requestAuthHeader storage defaults = defaults.authorization) := by
  constructor
  · intro t hkey ht
    simp [requestAuthHeader, jsStrOrNull, hkey, ht]
  · intro hn
    simp [requestAuthHeader, hn]

/-- C8 witness: the header theorem applied at a concrete stored token and at
empty storage with no default header. -/
theorem C8_header_witness :
    requestAuthHeader loggedInState.storage loggedInState.defaults =
      some "Bearer tok" ∧
    requestAuthHeader emptyState.storage emptyState.defaults = none :=
  ⟨(C8_header loggedInState.storage loggedInState.defaults).1 "tok" rfl (by decide),
   (C8_header emptyState.storage emptyState.defaults).2 rfl⟩

/-- C9: the dashboards' page count `Math.ceil(total / limit)` is the ceiling
of the quotient: it is the least integer `n` with `total ≤ n * limit`; in
particular 95 records at 10 per page give 10 pages and 0 records give 0
pages. -/
theorem C9_pagination (total limit : ℕ) (h : 0 < limit) :
    computeTotalPages 95 10 = 10 ∧
    computeTotalPages 0 10 = 0 ∧
    (total : ℚ) ≤ (computeTotalPages total limit : ℚ) * (limit : ℚ) ∧
    (∀ n : ℤ, (total : ℚ) ≤ (n : ℚ) * (limit : ℚ) →
      computeTotalPages total limit ≤ n) := by
  have hl : (0 : ℚ) < (limit : ℚ) := by exact_mod_cast h
  refine ⟨?_, ?_, ?_, ?_⟩
  · rw [computeTotalPages, Int.ceil_eq_iff]
    norm_num
  · rw [computeTotalPages, Int.ceil_eq_iff]
    norm_num
  · exact (div_le_iff₀ hl).mp (Int.le_ceil _)
  · intro n hn
    exact Int.ceil_le.mpr ((div_le_iff₀ hl).mpr hn)

/-- C9 witness: the pagination theorem applied at the claim's concrete
figures, `total = 95`, `limit = 10`. -/
theorem C9_pagination_witness :
    computeTotalPages 95 10 = 10 ∧ computeTotalPages 0 10 = 0 :=
  ⟨(C9_pagination 95 10 (by decide)).1, (C9_pagination 95 10 (by decide)).2.1⟩

/-- C10: the fulfilled branch of the login view navigates to the fixed route
`/dashboard/admin` for every successful response, with no inspection of the
returned user's role — an EMPLOYEE is sent to the admin dashboard route
too. -/
theorem C10_login_navigation (r : AuthResponse) (s : Storage) :
    (loginOnSubmitFulfilled r s).2 = "/dashboard/admin" := rfl

end CrudSems
